import Mathlib

/-!
Shallow embedding of the stabilization retry state machine of
`src/Dynatrace-Environment-SyntheticMonitor/src/handlers.ts`
(the `Resource` class: `createHandler`, `updateHandler`, `deleteHandler`,
`processRequestExceptionWithRetryableErrors`).

The callback-context fields `retry`, `successfulCalls` and `serverTiming` are
JavaScript numbers that may also be `undefined` (field absent), `null` or `NaN`
(e.g. `undefined + 1` evaluates to `NaN`).  They are embedded as the type
`JsNum`, whose operations (`truthy`, `orOne`, `orZero`, `add1`, `leNum`, ...)
mirror the JavaScript coercions used by the source (`x || 1`, `x || 0`,
`x + 1`, `x <= 10`, `x / 2`, ...).

Remote Gateway calls (`this.get`, `this.create`, `this.update`, `this.delete`)
are embedded by an environment `Env` holding the result each dynamic call of
one handler invocation would observe; a handler returns its outcome together
with the list of Gateway calls it actually performed.

The two `Math.random()` factors sampled by a delay computation are passed in
as the parameters `j1 j2 : ℚ`.
-/

/-- A JavaScript numeric value as stored in a callback-context field:
`undef` (field absent / `undefined`), `null`, `NaN`, or a number. -/
inductive JsNum
  | undef
  | null
  | nan
  | num (n : Int)
deriving DecidableEq

/-- JavaScript truthiness of a context field: `undefined`, `null`, `NaN`
and `0` are falsy, every other number is truthy. -/
def JsNum.truthy : JsNum → Bool
  | .num n => n ≠ 0
  | _ => false

/-- The JavaScript expression `x || 1` (used as `callbackContext.retry || 1`). -/
def JsNum.orOne : JsNum → Int
  | .num n => if n = 0 then 1 else n
  | _ => 1

/-- The JavaScript expression `x || 0`
(used as `callbackContext.successfulCalls || 0`). -/
def JsNum.orZero : JsNum → Int
  | .num n => n
  | _ => 0

/-- The JavaScript expression `x + 1` on a context field:
`undefined + 1 = NaN`, `null + 1 = 1`, `NaN + 1 = NaN`. -/
def JsNum.add1 : JsNum → JsNum
  | .undef => .nan
  | .null => .num 1
  | .nan => .nan
  | .num n => .num (n + 1)

/-- Numeric coercion used by JavaScript comparisons and division:
`null` coerces to `0`; `undefined` and `NaN` have no numeric value
(every comparison on them is false, arithmetic yields `NaN`). -/
def JsNum.toNumber : JsNum → Option Int
  | .undef => none
  | .null => some 0
  | .nan => none
  | .num n => some n

/-- The JavaScript comparison `x <= m` (false when `x` coerces to `NaN`). -/
def JsNum.leNum (x : JsNum) (m : Int) : Bool :=
  match x.toNumber with
  | some r => r ≤ m
  | none => false

/-- The JavaScript comparison `x > m` (false when `x` coerces to `NaN`). -/
def JsNum.gtNum (x : JsNum) (m : Int) : Bool :=
  match x.toNumber with
  | some r => m < r
  | none => false

/-- The JavaScript comparison `a < x` for a plain number `a`
(used as `getServerTiming < callbackContext.serverTiming`). -/
def jsLtNum (a : Int) (x : JsNum) : Bool :=
  match x.toNumber with
  | some s => a < s
  | none => false

/-- Whether a `JsNum` is an actual number. -/
def JsNum.isNum : JsNum → Bool
  | .num _ => true
  | _ => false

/-- The number held by a `JsNum` (`0` for the non-number cases). -/
def JsNum.val : JsNum → Int
  | .num n => n
  | _ => 0

/-- The callback context threaded between handler invocations
(`RetryableCallbackContext` extended with the Update handler's
`serverTiming` field, i.e. `EventuallyConsistentCallbackContext`).
`operationCompleted` is a JavaScript boolean or absent. -/
structure CallbackContext where
  retry : JsNum
  successfulCalls : JsNum
  operationCompleted : Option Bool
  serverTiming : JsNum
deriving DecidableEq

/-- The empty callback context of a first invocation (all fields absent). -/
def emptyCtx : CallbackContext := ⟨.undef, .undef, none, .undef⟩

/-- Truthiness of the `operationCompleted` field. -/
def obTruthy : Option Bool → Bool
  | some b => b
  | none => false

/-- Semantic fault kinds of the CloudFormation exception taxonomy used by the
handlers (`exceptions.NotFound`, `exceptions.AlreadyExists`, ...). -/
inductive FaultKind
  | NotFound
  | AlreadyExists
  | ServiceInternalError
  | NotStabilized
  | Other
deriving DecidableEq

/-- A fault raised by a Gateway call: either a transport fault carrying an
HTTP status code, or an already-classified CloudFormation exception
(e.g. the `exceptions.AlreadyExists` thrown and re-caught inside
`createHandler`). -/
inductive Fault
  | http (status : Int)
  | cfn (k : FaultKind)
deriving DecidableEq

/-- The `status` field observed by `JSON.parse(JSON.stringify(e1)).status`:
present for a transport (Axios) fault, absent for a CloudFormation
exception. -/
def Fault.status : Fault → Option Int
  | .http s => some s
  | .cfn _ => none

/-- Modelled from the spec: `processRequestException` lives in
`Dynatrace-Common/src/abstract-dynatrace-resource.ts`, which is not under
`src/`.  Per spec section 4.4 the classifier maps HTTP 404 to `NotFound`,
HTTP 409 (duplicate semantics) to `AlreadyExists`, HTTP 5xx to
`ServiceInternalError` and everything else to `Other`; an already-classified
exception is re-raised unchanged.  (The vendor-error-code branch also mapping
to `ServiceInternalError` is elided: the spec names no concrete code
values.) -/
def classify : Fault → FaultKind
  | .http s =>
      if s = 404 then .NotFound
      else if s = 409 then .AlreadyExists
      else if 500 ≤ s then .ServiceInternalError
      else .Other
  | .cfn k => k

/-- A Gateway response to a `get` call.  `serverTiming` is the
server-provided timing marker extracted by `this.getServerTiming(response)`
(modelled from the spec, section 4.2: the extractor lives in the
`Dynatrace-Common` base class, not under `src/`). -/
structure GetResp where
  serverTiming : Int
deriving DecidableEq

deriving instance DecidableEq for Except

/-- Results the Gateway would return for each call a single handler
invocation can make.  `getRes2` is the result of the second `get` of a
Delete invocation that falls through from the delete call to the
verification read. -/
structure Env where
  getRes : Except Fault GetResp
  getRes2 : Except Fault GetResp
  createRes : Except Fault GetResp
  updateRes : Except Fault GetResp
  deleteRes : Except Fault Unit
deriving DecidableEq

/-- A Gateway call performed by a handler invocation. -/
inductive Call
  | get
  | create
  | update
  | delete
deriving DecidableEq

/-- The `callbackDelaySeconds` attached to a progress event: absent
(builder never called, as in the Update stale-timing branch), `NaN`
(computed from a non-numeric retry field), or a number of seconds. -/
inductive Delay
  | unset
  | nan
  | secs (q : ℚ)
deriving DecidableEq

/-- The delay formula of the source,
`Math.pow(2, Math.floor(retry/2)) * Math.random() * Math.random()`,
for an actual number `retry = r` and jitter samples `j1 j2`.
`Math.floor(r/2)` on an integer `r` is floor division `Int.fdiv r 2`. -/
def powDelay (r : Int) (j1 j2 : ℚ) : ℚ :=
  (2 : ℚ) ^ (Int.fdiv r 2) * j1 * j2

/-- The same delay computation applied to a raw context field (as in
`Math.pow(2, Math.floor(callbackContext.retry/2))` at Create's stabilization
branch and Delete's verification branch): a non-numeric field makes the
whole product `NaN`. -/
def jsDelayOf (x : JsNum) (j1 j2 : ℚ) : Delay :=
  match x.toNumber with
  | some r => .secs (powDelay r j1 j2)
  | none => .nan

/-- The progress outcome a handler invocation delivers to the host:
`InProgress(context, delay)`, terminal `Success`, or terminal
`Failed(kind)` (a thrown classified exception). -/
inductive Outcome
  | inProgress (ctx : CallbackContext) (delay : Delay)
  | success
  | failed (k : FaultKind)
deriving DecidableEq

/-- The callback context built by
`processRequestExceptionWithRetryableErrors`: only the `retry` field is set. -/
def onlyRetryCtx (r : Int) : CallbackContext :=
  ⟨.num r, .undef, none, .undef⟩

/-- `Resource.processRequestExceptionWithRetryableErrors` (handlers.ts
lines 310-333): classify the fault via `processRequestException`; if the
classified kind is in the retryable list, return `InProgress` with context
`{retry: callbackContext.retry || 1}` and delay
`2^floor(retry/2) * random() * random()`; otherwise re-throw the classified
exception. -/
def processRequestExceptionWithRetryableErrors (e : Fault) (ctx : CallbackContext)
    (retryableErrorsList : List FaultKind) (j1 j2 : ℚ) :
    Except FaultKind (CallbackContext × Delay) :=
  if retryableErrorsList.contains (classify e) then
    .ok (onlyRetryCtx ctx.retry.orOne, .secs (powDelay ctx.retry.orOne j1 j2))
  else
    .error (classify e)

/-- Turn the result of `processRequestExceptionWithRetryableErrors` into the
handler's outcome: a returned progress event is passed through, a thrown
classified exception becomes the terminal failure the framework reports. -/
def exceptToOutcome (r : Except FaultKind (CallbackContext × Delay)) : Outcome :=
  match r with
  | .ok (c, d) => .inProgress c d
  | .error k => .failed k

/-- `Resource.createHandler` (handlers.ts lines 49-142).
Phase 1 (context has no truthy `retry`): `get`; a resolved `get` throws
`AlreadyExists`, which the same `catch` re-processes (its JSON `status` is
absent, hence not 404/400) against retryable list `[ServiceInternalError]`.
A 404/400 `get` fault falls through to `create`; `create` success yields
`InProgress {retry: 1}`, `create` failure is processed against
`[NotFound, ServiceInternalError]`.
Phase 2 (truthy `retry`): a stabilization `get`; on success, if
`(successfulCalls || 0) < 5` and `retry <= 10`, `InProgress` with
`successfulCalls + 1` (JavaScript addition) and `retry` unchanged, else fall
through to `Success`; on failure, process with `successfulCalls` reset to 0
against `[NotFound, ServiceInternalError]`. -/
def createHandler (ctx : CallbackContext) (env : Env) (j1 j2 : ℚ) :
    Outcome × List Call :=
  if ¬ ctx.retry.truthy then
    match env.getRes with
    | .ok _ =>
        (exceptToOutcome (processRequestExceptionWithRetryableErrors
          (.cfn .AlreadyExists) ctx [.ServiceInternalError] j1 j2), [.get])
    | .error e1 =>
        if e1.status = some 404 ∨ e1.status = some 400 then
          match env.createRes with
          | .ok _ =>
              (.inProgress ⟨.num 1, .undef, none, .undef⟩
                (.secs (powDelay 1 j1 j2)), [.get, .create])
          | .error e =>
              (exceptToOutcome (processRequestExceptionWithRetryableErrors
                e ctx [.NotFound, .ServiceInternalError] j1 j2), [.get, .create])
        else
          (exceptToOutcome (processRequestExceptionWithRetryableErrors
            e1 ctx [.ServiceInternalError] j1 j2), [.get])
  else
    match env.getRes with
    | .ok _ =>
        if ctx.successfulCalls.orZero < 5 ∧ ctx.retry.leNum 10 then
          (.inProgress ⟨ctx.retry, ctx.successfulCalls.add1, none, .undef⟩
            (jsDelayOf ctx.retry j1 j2), [.get])
        else
          (.success, [.get])
    | .error e1 =>
        (exceptToOutcome (processRequestExceptionWithRetryableErrors
          e1 ⟨ctx.retry, .num 0, none, .undef⟩
          [.NotFound, .ServiceInternalError] j1 j2), [.get])

/-- `Resource.updateHandler` (handlers.ts lines 146-230).
Entry guard: a truthy `retry` greater than `maxRetries = 10` throws
`NotStabilized` before any Gateway call.
Phase 1 (neither `serverTiming` nor `operationCompleted` truthy): `get`
(failures processed against `[ServiceInternalError]`), then `update`; on
update success, `InProgress {retry: retry || 1, operationCompleted: true}`
with a computed delay; on update failure, process against
`[NotFound, ServiceInternalError]`.
Phase 2: verification `get`; on success, if `serverTiming` is truthy and the
observed marker is strictly less than it, `InProgress` storing the new marker
with `retry + 1` and no delay set, else `Success`; on failure, throw
`NotStabilized` when no `serverTiming` is recorded, else process against
`[ServiceInternalError]`. -/
def updateHandler (ctx : CallbackContext) (env : Env) (j1 j2 : ℚ) :
    Outcome × List Call :=
  if ctx.retry.truthy ∧ ctx.retry.gtNum 10 then
    (.failed .NotStabilized, [])
  else if ¬ ctx.serverTiming.truthy ∧ ¬ obTruthy ctx.operationCompleted then
    match env.getRes with
    | .error e1 =>
        (exceptToOutcome (processRequestExceptionWithRetryableErrors
          e1 ctx [.ServiceInternalError] j1 j2), [.get])
    | .ok _ =>
        match env.updateRes with
        | .ok _ =>
            (.inProgress ⟨.num ctx.retry.orOne, .undef, some true, .undef⟩
              (.secs (powDelay ctx.retry.orOne j1 j2)), [.get, .update])
        | .error e1 =>
            (exceptToOutcome (processRequestExceptionWithRetryableErrors
              e1 ctx [.NotFound, .ServiceInternalError] j1 j2), [.get, .update])
  else
    match env.getRes with
    | .ok resp =>
        if ctx.serverTiming.truthy ∧ jsLtNum resp.serverTiming ctx.serverTiming then
          (.inProgress ⟨ctx.retry.add1, .undef, none, .num resp.serverTiming⟩
            .unset, [.get])
        else
          (.success, [.get])
    | .error e1 =>
        if ¬ ctx.serverTiming.truthy then
          (.failed .NotStabilized, [.get])
        else
          (exceptToOutcome (processRequestExceptionWithRetryableErrors
            e1 ctx [.ServiceInternalError] j1 j2), [.get])

/-- The verification (`VERIFY_ABSENCE`) tail of `Resource.deleteHandler`
(handlers.ts lines 271-307), parameterised by the result of its `get` call.
On a resolved `get` (resource still present): with `retry := retry || 1`, if
`retry <= 10`, `InProgress {retry: retry + 1, operationCompleted: true}`
whose delay is computed from the raw `callbackContext.retry` field, else
throw `NotStabilized`.  On a `get` fault: process with
`{retry, operationCompleted: true}` against `[ServiceInternalError]`; a
re-thrown `NotFound` becomes `Success`, any other re-thrown kind is the
terminal failure. -/
def deleteVerify (ctx : CallbackContext) (getR : Except Fault GetResp)
    (j1 j2 : ℚ) : Outcome :=
  match getR with
  | .ok _ =>
      if ctx.retry.orOne ≤ 10 then
        .inProgress ⟨.num (ctx.retry.orOne + 1), .undef, some true, .undef⟩
          (jsDelayOf ctx.retry j1 j2)
      else
        .failed .NotStabilized
  | .error e1 =>
      match processRequestExceptionWithRetryableErrors
          e1 ⟨ctx.retry, .undef, some true, .undef⟩ [.ServiceInternalError] j1 j2 with
      | .ok (c, d) => .inProgress c d
      | .error k => if k = .NotFound then .success else .failed k

/-- `Resource.deleteHandler` (handlers.ts lines 231-307).
Phase 1 (no truthy `operationCompleted`): `get` (failures processed against
`[ServiceInternalError]`), then `delete` (failures processed against
`[NotFound, ServiceInternalError]`); a successful `delete` falls through to
the verification read within the same invocation (second `get`,
`env.getRes2`).  With truthy `operationCompleted` the invocation goes
straight to the verification read (`env.getRes`). -/
def deleteHandler (ctx : CallbackContext) (env : Env) (j1 j2 : ℚ) :
    Outcome × List Call :=
  if ¬ obTruthy ctx.operationCompleted then
    match env.getRes with
    | .error e1 =>
        (exceptToOutcome (processRequestExceptionWithRetryableErrors
          e1 ctx [.ServiceInternalError] j1 j2), [.get])
    | .ok _ =>
        match env.deleteRes with
        | .error e1 =>
            (exceptToOutcome (processRequestExceptionWithRetryableErrors
              e1 ctx [.NotFound, .ServiceInternalError] j1 j2), [.get, .delete])
        | .ok _ =>
            (deleteVerify ctx env.getRes2 j1 j2, [.get, .delete, .get])
  else
    (deleteVerify ctx env.getRes j1 j2, [.get])

/-- JSON round trip the host applies to the callback context between
invocations (spec section 3: the context is "opaque, serializable state
threaded between invocations"); `JSON.stringify` renders `NaN` as `null`. -/
def roundTripNum : JsNum → JsNum
  | .nan => .null
  | x => x

/-- JSON round trip of a whole callback context. -/
def roundTrip (c : CallbackContext) : CallbackContext :=
  ⟨roundTripNum c.retry, roundTripNum c.successfulCalls,
   c.operationCompleted, roundTripNum c.serverTiming⟩

/-- Iterated re-invocation of the Create handler against a fixed
environment: `runCreateReads n` performs up to `n + 1` invocations,
round-tripping the returned context between them, and returns the first
non-`InProgress` outcome, or the last `InProgress` outcome after `n + 1`
invocations. -/
def runCreateReads : Nat → CallbackContext → Env → ℚ → ℚ → Outcome
  | 0, ctx, env, j1, j2 => (createHandler ctx env j1 j2).1
  | n + 1, ctx, env, j1, j2 =>
      match createHandler ctx env j1 j2 with
      | (.inProgress c _, _) => runCreateReads n (roundTrip c) env j1 j2
      | (o, _) => o

/-- An environment in which every Gateway call succeeds. -/
def envAllOk : Env := ⟨.ok ⟨0⟩, .ok ⟨0⟩, .ok ⟨0⟩, .ok ⟨0⟩, .ok ()⟩

/-- An environment in which the (first) `get` fails with HTTP 503. -/
def envGet503 : Env := { envAllOk with getRes := .error (.http 503) }

/-- An environment in which the (first) `get` fails with HTTP 404. -/
def envGet404 : Env := { envAllOk with getRes := .error (.http 404) }

/-- An environment whose `get` succeeds with server timing marker 5. -/
def envTiming5 : Env := { envAllOk with getRes := .ok ⟨5⟩ }

/-- An environment whose `get` succeeds with server timing marker 7. -/
def envTiming7 : Env := { envAllOk with getRes := .ok ⟨7⟩ }

/-! ## Helper lemmas -/

@[simp] theorem isNum_num (n : Int) : (JsNum.num n).isNum = true := rfl

@[simp] theorem val_num (n : Int) : (JsNum.num n).val = n := rfl

theorem orOne_num_ge (r : Int) : r ≤ (JsNum.num r).orOne := by
  show r ≤ if r = 0 then 1 else r
  split <;> omega

theorem truthy_num_zero {r : Int} (h : (JsNum.num r).truthy = false) : r = 0 := by
  simpa [JsNum.truthy] using h

/-- A resolved call of `processRequestExceptionWithRetryableErrors` always
returns the retry-only context and the delay of the backoff formula. -/
theorem prer_ok_shape (e : Fault) (ctx : CallbackContext) (L : List FaultKind)
    (j1 j2 : ℚ) (c : CallbackContext) (d : Delay)
    (h : processRequestExceptionWithRetryableErrors e ctx L j1 j2 = .ok (c, d)) :
    c = onlyRetryCtx ctx.retry.orOne ∧ d = .secs (powDelay ctx.retry.orOne j1 j2) := by
  unfold processRequestExceptionWithRetryableErrors at h
  split at h
  · simp only [Except.ok.injEq, Prod.mk.injEq] at h
    exact ⟨h.1.symm, h.2.symm⟩
  · simp at h

/-- The same fact through `exceptToOutcome`: an `InProgress` outcome produced
by the shared retry path carries the retry-only context. -/
theorem prer_inProgress (e : Fault) (ctx : CallbackContext) (L : List FaultKind)
    (j1 j2 : ℚ) (c : CallbackContext) (d : Delay)
    (h : exceptToOutcome (processRequestExceptionWithRetryableErrors e ctx L j1 j2)
      = .inProgress c d) :
    c = onlyRetryCtx ctx.retry.orOne ∧ d = .secs (powDelay ctx.retry.orOne j1 j2) := by
  unfold exceptToOutcome at h
  split at h
  next c' d' heq =>
    simp only [Outcome.inProgress.injEq] at h
    obtain ⟨h1, h2⟩ := h
    subst h1
    subst h2
    exact prer_ok_shape e ctx L j1 j2 _ _ heq
  next k heq => simp at h

/-- An `InProgress` outcome of `createHandler` never lowers a numeric
`retry` field. -/
theorem createHandler_retry_mono (ctx : CallbackContext) (env : Env) (j1 j2 : ℚ)
    (r : Int) (c : CallbackContext) (d : Delay) (tr : List Call)
    (h : ctx.retry = .num r)
    (hc : createHandler ctx env j1 j2 = (.inProgress c d, tr)) :
    c.retry.isNum = true ∧ r ≤ c.retry.val := by
  unfold createHandler at hc
  split at hc
  next hnt =>
    have hr0 : r = 0 := by
      refine truthy_num_zero (h ▸ ?_)
      simpa using hnt
    split at hc
    next =>
      simp only [Prod.mk.injEq] at hc
      obtain ⟨hcc, -⟩ := prer_inProgress _ _ _ _ _ _ _ hc.1
      subst hcc
      simp only [onlyRetryCtx, isNum_num, val_num, true_and]
      exact h ▸ hr0 ▸ (hr0 ▸ orOne_num_ge r)
    next e1 =>
      split at hc
      · split at hc
        next =>
          simp only [Prod.mk.injEq, Outcome.inProgress.injEq] at hc
          obtain ⟨⟨hcc, -⟩, -⟩ := hc
          subst hcc
          simp only [isNum_num, val_num, true_and]
          omega
        next e =>
          simp only [Prod.mk.injEq] at hc
          obtain ⟨hcc, -⟩ := prer_inProgress _ _ _ _ _ _ _ hc.1
          subst hcc
          simp only [onlyRetryCtx, isNum_num, val_num, true_and]
          exact h ▸ orOne_num_ge r
      · simp only [Prod.mk.injEq] at hc
        obtain ⟨hcc, -⟩ := prer_inProgress _ _ _ _ _ _ _ hc.1
        subst hcc
        simp only [onlyRetryCtx, isNum_num, val_num, true_and]
        exact h ▸ orOne_num_ge r
  next =>
    split at hc
    next =>
      split at hc
      · simp only [Prod.mk.injEq, Outcome.inProgress.injEq] at hc
        obtain ⟨⟨hcc, -⟩, -⟩ := hc
        subst hcc
        simp only [h, isNum_num, val_num, true_and]
        omega
      · simp at hc
    next e1 =>
      simp only [Prod.mk.injEq] at hc
      obtain ⟨hcc, -⟩ := prer_inProgress _ _ _ _ _ _ _ hc.1
      subst hcc
      simp only [onlyRetryCtx, isNum_num, val_num, true_and]
      exact h ▸ orOne_num_ge r

/-- An `InProgress` outcome of `updateHandler` never lowers a numeric
`retry` field. -/
theorem updateHandler_retry_mono (ctx : CallbackContext) (env : Env) (j1 j2 : ℚ)
    (r : Int) (c : CallbackContext) (d : Delay) (tr : List Call)
    (h : ctx.retry = .num r)
    (hc : updateHandler ctx env j1 j2 = (.inProgress c d, tr)) :
    c.retry.isNum = true ∧ r ≤ c.retry.val := by
  unfold updateHandler at hc
  split at hc
  · simp at hc
  · split at hc
    · split at hc
      next e1 =>
        simp only [Prod.mk.injEq] at hc
        obtain ⟨hcc, -⟩ := prer_inProgress _ _ _ _ _ _ _ hc.1
        subst hcc
        simp only [onlyRetryCtx, isNum_num, val_num, true_and]
        exact h ▸ orOne_num_ge r
      next =>
        split at hc
        · simp only [Prod.mk.injEq, Outcome.inProgress.injEq] at hc
          obtain ⟨⟨hcc, -⟩, -⟩ := hc
          subst hcc
          simp only [isNum_num, val_num, true_and]
          exact h ▸ orOne_num_ge r
        next e1 =>
          simp only [Prod.mk.injEq] at hc
          obtain ⟨hcc, -⟩ := prer_inProgress _ _ _ _ _ _ _ hc.1
          subst hcc
          simp only [onlyRetryCtx, isNum_num, val_num, true_and]
          exact h ▸ orOne_num_ge r
    · split at hc
      next resp =>
        split at hc
        · simp only [Prod.mk.injEq, Outcome.inProgress.injEq] at hc
          obtain ⟨⟨hcc, -⟩, -⟩ := hc
          subst hcc
          simp only [h, JsNum.add1, isNum_num, val_num, true_and]
          omega
        · simp at hc
      next e1 =>
        split at hc
        · simp at hc
        · simp only [Prod.mk.injEq] at hc
          obtain ⟨hcc, -⟩ := prer_inProgress _ _ _ _ _ _ _ hc.1
          subst hcc
          simp only [onlyRetryCtx, isNum_num, val_num, true_and]
          exact h ▸ orOne_num_ge r

/-- An `InProgress` outcome of `deleteVerify` never lowers a numeric
`retry` field. -/
theorem deleteVerify_retry_mono (ctx : CallbackContext) (g : Except Fault GetResp)
    (j1 j2 : ℚ) (r : Int) (c : CallbackContext) (d : Delay)
    (h : ctx.retry = .num r)
    (hc : deleteVerify ctx g j1 j2 = .inProgress c d) :
    c.retry.isNum = true ∧ r ≤ c.retry.val := by
  unfold deleteVerify at hc
  split at hc
  · split at hc
    · simp only [Outcome.inProgress.injEq] at hc
      obtain ⟨hcc, -⟩ := hc
      subst hcc
      simp only [isNum_num, val_num, true_and]
      have := h ▸ orOne_num_ge r
      omega
    · simp at hc
  next e1 =>
    split at hc
    next c' d' heq =>
      obtain ⟨hcc, -⟩ := prer_ok_shape _ _ _ _ _ _ _ heq
      simp only [Outcome.inProgress.injEq] at hc
      obtain ⟨hc1, -⟩ := hc
      subst hc1
      subst hcc
      simp only [onlyRetryCtx, isNum_num, val_num, true_and]
      exact h ▸ orOne_num_ge r
    next k heq =>
      split at hc <;> simp at hc

/-- An `InProgress` outcome of `deleteHandler` never lowers a numeric
`retry` field. -/
theorem deleteHandler_retry_mono (ctx : CallbackContext) (env : Env) (j1 j2 : ℚ)
    (r : Int) (c : CallbackContext) (d : Delay) (tr : List Call)
    (h : ctx.retry = .num r)
    (hc : deleteHandler ctx env j1 j2 = (.inProgress c d, tr)) :
    c.retry.isNum = true ∧ r ≤ c.retry.val := by
  unfold deleteHandler at hc
  split at hc
  · split at hc
    next e1 =>
      simp only [Prod.mk.injEq] at hc
      obtain ⟨hcc, -⟩ := prer_inProgress _ _ _ _ _ _ _ hc.1
      subst hcc
      simp only [onlyRetryCtx, isNum_num, val_num, true_and]
      exact h ▸ orOne_num_ge r
    next =>
      split at hc
      next e1 =>
        simp only [Prod.mk.injEq] at hc
        obtain ⟨hcc, -⟩ := prer_inProgress _ _ _ _ _ _ _ hc.1
        subst hcc
        simp only [onlyRetryCtx, isNum_num, val_num, true_and]
        exact h ▸ orOne_num_ge r
      next =>
        simp only [Prod.mk.injEq] at hc
        exact deleteVerify_retry_mono ctx env.getRes2 j1 j2 r c d h hc.1
  · simp only [Prod.mk.injEq] at hc
    exact deleteVerify_retry_mono ctx env.getRes j1 j2 r c d h hc.1

/-! ## Claim theorems -/

/-- Claim C1: the claim demands that exceeding the maximum retry bound (10)
without reaching the phase goal always yields `Failed(NotStabilized)`.  The
code violates it: in Create's STABILIZING phase with `retry = 11 > 10` and
`successfulCalls = 2 < 5`, a successful read falls through to `Success`, and
a read failing with a retryable HTTP 503 yields a non-terminal `InProgress`
that still carries `retry = 11`. -/
theorem c1_retry_exceeded_evaluation :
    createHandler ⟨.num 11, .num 2, none, .undef⟩ envAllOk 0 0 =
      (.success, [.get]) ∧
    createHandler ⟨.num 11, .num 2, none, .undef⟩ envGet503 0 0 =
      (.inProgress ⟨.num 11, .undef, none, .undef⟩
        (.secs (powDelay 11 0 0)), [.get]) := by
  exact ⟨rfl, rfl⟩

/-- Claim C2: the claim states `Success` is returned exactly after 5
consecutive successful stabilization reads.  Evaluating the code from the
post-create context `{retry: 1}` against an always-succeeding Gateway: after
5 consecutive successful reads the handler is still `InProgress` (the stored
counter is only 4, because the counter is tested before being incremented and
incrementing the initially absent counter gives `NaN`, which the JSON round
trip turns into `null`); `Success` arrives only on the 7th consecutive
successful read. -/
theorem c2_five_reads_evaluation :
    runCreateReads 4 ⟨.num 1, .undef, none, .undef⟩ envAllOk 0 0 =
      .inProgress ⟨.num 1, .num 4, none, .undef⟩ (.secs (powDelay 1 0 0)) ∧
    runCreateReads 6 ⟨.num 1, .undef, none, .undef⟩ envAllOk 0 0 =
      .success := by
  exact ⟨rfl, rfl⟩

/-- Claim C3 counterexample: the Delete handler invoked with
`{retry: 1, operationCompleted: true}` whose verification read fails with a
retryable HTTP 503 returns `InProgress` whose context has dropped
`operationCompleted` (the `processRequestExceptionWithRetryableErrors` path
rebuilds the context with only `retry`), so `operationCompleted` does revert
from `true` to absent, refuting the claimed invariant. -/
theorem c3_operation_completed_dropped :
    deleteHandler ⟨.num 1, .undef, some true, .undef⟩ envGet503 0 0 =
      (.inProgress ⟨.num 1, .undef, none, .undef⟩
        (.secs (powDelay 1 0 0)), [.get]) := by
  rfl

/-- Claim C3 (amended): for every handler invocation (Create, Update or
Delete) that returns an `InProgress` outcome from a context whose `retry`
field is the number `r`, the returned context's `retry` field is a number
not smaller than `r`; the `operationCompleted` half of the claimed invariant
is false — the flag is dropped whenever a retryable fault is handled by
`processRequestExceptionWithRetryableErrors`. -/
theorem c3_retry_monotone (ctx : CallbackContext) (env : Env) (j1 j2 : ℚ)
    (r : Int) (c : CallbackContext) (d : Delay) (tr : List Call)
    (h : ctx.retry = .num r)
    (hc : createHandler ctx env j1 j2 = (.inProgress c d, tr) ∨
          updateHandler ctx env j1 j2 = (.inProgress c d, tr) ∨
          deleteHandler ctx env j1 j2 = (.inProgress c d, tr)) :
    c.retry.isNum = true ∧ r ≤ c.retry.val := by
  rcases hc with hc | hc | hc
  · exact createHandler_retry_mono ctx env j1 j2 r c d tr h hc
  · exact updateHandler_retry_mono ctx env j1 j2 r c d tr h hc
  · exact deleteHandler_retry_mono ctx env j1 j2 r c d tr h hc

/-- Claim C3 witness: the amended theorem applied to the Delete handler at
`retry = 3` with an all-succeeding Gateway, whose verification read leaves
the resource present and advances `retry` to 4. -/
theorem c3_retry_monotone_witness :
    (CallbackContext.mk (.num 4) .undef (some true) .undef).retry.isNum = true ∧
    (3 : Int) ≤ (CallbackContext.mk (.num 4) .undef (some true) .undef).retry.val :=
  c3_retry_monotone ⟨.num 3, .undef, some true, .undef⟩ envAllOk 0 0 3
    ⟨.num 4, .undef, some true, .undef⟩ (.secs (powDelay 3 0 0)) [.get] rfl
    (.inr (.inr rfl))

/-- Claim C4: the claim states that after a retryable `ServiceInternalError`
during Create's CHECK_ABSENCE the handler re-enters CHECK_ABSENCE on
re-invocation and, absence confirmed, still issues the create call.  The
code's first half agrees — the first invocation returns `InProgress` with
`retry = 1` after a delay — but the re-invocation, whose context now has a
truthy `retry`, skips the whole CHECK_ABSENCE/create block and performs only
the stabilization read (here failing 404 because nothing was created),
looping as `InProgress {retry: 1}` without ever calling create. -/
theorem c4_retryable_absence_fault_evaluation :
    createHandler emptyCtx envGet503 0 0 =
      (.inProgress ⟨.num 1, .undef, none, .undef⟩
        (.secs (powDelay 1 0 0)), [.get]) ∧
    createHandler ⟨.num 1, .undef, none, .undef⟩ envGet404 0 0 =
      (.inProgress ⟨.num 1, .undef, none, .undef⟩
        (.secs (powDelay 1 0 0)), [.get]) ∧
    Call.create ∉ (createHandler ⟨.num 1, .undef, none, .undef⟩ envGet404 0 0).2 := by
  refine ⟨rfl, rfl, by decide⟩

/-- Claim C5 counterexample: in Update's VERIFY_TIMING with stored
`serverTiming = 5`, a verification read observing the marker 5 — not
strictly greater than the stored value — yields `Success`, not the
`InProgress` the claim requires: the code re-schedules only when the
observed marker is strictly *less* than the stored one. -/
theorem c5_equal_marker_success :
    updateHandler ⟨.num 1, .undef, none, .num 5⟩ envTiming5 0 0 =
      (.success, [.get]) := by
  rfl

/-- Claim C5 (amended): in Update's VERIFY_TIMING with a stored numeric
marker `s ≠ 0` and `retry = r ≤ 10`, a successful verification read
observing marker `m` yields `InProgress` — with the new marker stored,
`retry` incremented by one and no delay set — exactly when `m` is strictly
less than `s`, and `Success` when `m ≥ s`; with no stored marker (first
check after `operationCompleted`), a successful read always yields
`Success`. -/
theorem c5_verify_timing_amended (s r m : Int) (env : Env) (j1 j2 : ℚ)
    (hs : s ≠ 0) (hr : r ≤ 10) (hget : env.getRes = .ok ⟨m⟩) :
    updateHandler ⟨.num r, .undef, none, .num s⟩ env j1 j2 =
      (if m < s then
        (.inProgress ⟨.num (r + 1), .undef, none, .num m⟩ .unset, [.get])
      else
        (.success, [.get])) ∧
    updateHandler ⟨.num r, .undef, some true, .undef⟩ env j1 j2 =
      (.success, [.get]) := by
  constructor
  · unfold updateHandler
    rw [if_neg (by
      rintro ⟨-, hgt⟩
      simp only [JsNum.gtNum, JsNum.toNumber, decide_eq_true_eq] at hgt
      omega)]
    rw [if_neg (by
      rintro ⟨hsf, -⟩
      exact hsf (by simp [JsNum.truthy, hs]))]
    rw [hget]
    by_cases hm : m < s
    · simp [hm, JsNum.truthy, hs, jsLtNum, JsNum.toNumber, JsNum.add1]
    · simp [hm, JsNum.truthy, hs, jsLtNum, JsNum.toNumber]
  · unfold updateHandler
    rw [if_neg (by
      rintro ⟨-, hgt⟩
      simp only [JsNum.gtNum, JsNum.toNumber, decide_eq_true_eq] at hgt
      omega)]
    rw [if_neg (by
      rintro ⟨-, hob⟩
      exact hob (by simp [obTruthy]))]
    rw [hget]
    simp [JsNum.truthy]

/-- Claim C5 witness: the amended theorem at stored marker 5, `retry = 1`,
observed marker 7. -/
theorem c5_verify_timing_amended_witness :
    updateHandler ⟨.num 1, .undef, none, .num 5⟩ envTiming7 0 0 =
      (if (7 : Int) < 5 then
        (.inProgress ⟨.num 2, .undef, none, .num 7⟩ .unset, [.get])
      else
        (.success, [.get])) ∧
    updateHandler ⟨.num 1, .undef, some true, .undef⟩ envTiming7 0 0 =
      (.success, [.get]) :=
  c5_verify_timing_amended 5 1 7 envTiming7 0 0 (by decide) (by decide) rfl

/-- Claim C6: in Delete's VERIFY_ABSENCE (context has `operationCompleted`
and numeric `retry = r ≥ 1`), a verification read failing with a fault
classified `NotFound` always yields terminal `Success`; a verification read
that succeeds (resource still present) yields `InProgress` with `retry`
incremented to `r + 1` when `r ≤ 10`, and `Failed(NotStabilized)` once `r`
exceeds the bound 10. -/
theorem c6_delete_verify_absence (r : Int) (envOk envNF : Env) (resp : GetResp)
    (f : Fault) (j1 j2 : ℚ) (hr : 1 ≤ r)
    (hok : envOk.getRes = .ok resp)
    (hnf : envNF.getRes = .error f) (hf : classify f = .NotFound) :
    deleteHandler ⟨.num r, .undef, some true, .undef⟩ envNF j1 j2 =
      (.success, [.get]) ∧
    deleteHandler ⟨.num r, .undef, some true, .undef⟩ envOk j1 j2 =
      (if r ≤ 10 then
        (.inProgress ⟨.num (r + 1), .undef, some true, .undef⟩
          (.secs (powDelay r j1 j2)), [.get])
      else
        (.failed .NotStabilized, [.get])) := by
  have ho : (JsNum.num r).orOne = r := by
    show (if r = 0 then 1 else r) = r
    rw [if_neg (by omega)]
  constructor
  · unfold deleteHandler
    rw [if_neg (by simp [obTruthy])]
    unfold deleteVerify
    rw [hnf]
    simp [processRequestExceptionWithRetryableErrors, hf]
  · unfold deleteHandler
    rw [if_neg (by simp [obTruthy])]
    unfold deleteVerify
    rw [hok]
    by_cases h10 : r ≤ 10
    · rw [if_pos (by rw [ho]; exact h10), if_pos h10]
      simp [ho, jsDelayOf, JsNum.toNumber]
    · rw [if_neg (by rw [ho]; exact h10), if_neg h10]

/-- Claim C6 witness: the theorem at `retry = 3` against a Gateway whose
read 404s (delete propagated) and one whose read still succeeds. -/
theorem c6_delete_verify_absence_witness :
    deleteHandler ⟨.num 3, .undef, some true, .undef⟩ envGet404 0 0 =
      (.success, [.get]) ∧
    deleteHandler ⟨.num 3, .undef, some true, .undef⟩ envAllOk 0 0 =
      (if (3 : Int) ≤ 10 then
        (.inProgress ⟨.num 4, .undef, some true, .undef⟩
          (.secs (powDelay 3 0 0)), [.get])
      else
        (.failed .NotStabilized, [.get])) :=
  c6_delete_verify_absence 3 envAllOk envGet404 ⟨0⟩ (.http 404) 0 0
    (by decide) rfl rfl rfl

/-- Claim C7: on a first Create invocation (no truthy retry count in the
context) whose existence read resolves — the resource already exists — the
handler terminates with `Failed(AlreadyExists)` and the Gateway create call
is never issued (the call trace is just the read). -/
theorem c7_create_already_exists (ctx : CallbackContext) (env : Env)
    (resp : GetResp) (j1 j2 : ℚ)
    (hretry : ctx.retry.truthy = false)
    (hget : env.getRes = .ok resp) :
    createHandler ctx env j1 j2 = (.failed .AlreadyExists, [.get]) := by
  unfold createHandler
  rw [if_pos (by simp [hretry]), hget]
  rfl

/-- Claim C7 witness: the theorem at the empty first-invocation context
against a Gateway whose read returns the resource. -/
theorem c7_create_already_exists_witness :
    createHandler emptyCtx envAllOk 0 0 = (.failed .AlreadyExists, [.get]) :=
  c7_create_already_exists emptyCtx envAllOk ⟨0⟩ 0 0 rfl rfl

/-- Claim C8: an Update invocation whose incoming context has a numeric
`retry` strictly greater than the maximum retry bound 10 fails terminally
with `NotStabilized` before performing any Gateway call (empty call
trace), regardless of the rest of the context. -/
theorem c8_update_entry_guard (ctx : CallbackContext) (env : Env) (r : Int)
    (j1 j2 : ℚ) (h : ctx.retry = .num r) (hr : 10 < r) :
    updateHandler ctx env j1 j2 = (.failed .NotStabilized, []) := by
  unfold updateHandler
  rw [if_pos ⟨by simp [h, JsNum.truthy]; omega,
    by simp [h, JsNum.gtNum, JsNum.toNumber]; omega⟩]

/-- Claim C8 witness: the theorem at `retry = 11`. -/
theorem c8_update_entry_guard_witness :
    updateHandler ⟨.num 11, .undef, none, .undef⟩ envAllOk 0 0 =
      (.failed .NotStabilized, []) :=
  c8_update_entry_guard ⟨.num 11, .undef, none, .undef⟩ envAllOk 11 0 0
    rfl (by decide)

/-- Claim C9 counterexample: not every computed delay has the claimed form
`2^floor(retry/2) * j1 * j2`.  On Delete's first invocation, whose context
has no `retry` field, the fall-through verification read computes the delay
from the raw `callbackContext.retry` (`undefined`), producing `NaN` —
which equals the formula's value for no retry number. -/
theorem c9_delete_nan_delay :
    deleteHandler emptyCtx envAllOk 0 0 =
      (.inProgress ⟨.num 2, .undef, some true, .undef⟩ .nan,
        [.get, .delete, .get]) := by
  rfl

/-- Claim C9 (amended): for a numeric retry value `r` the delay formula
`powDelay r j1 j2 = 2^floor(r/2) * j1 * j2` with jitter factors in `[0,1]`
is non-negative, bounded by `2^floor(r/2)`, and monotone in `r` for fixed
jitter factors; and every delay attached by the shared retry path
`processRequestExceptionWithRetryableErrors` is exactly the formula at
`retry || 1`.  (In Delete's VERIFY_ABSENCE with no retry recorded the
computed delay is instead `NaN`, per the counterexample.) -/
theorem c9_backoff_amended (r r' : Int) (j1 j2 : ℚ) (e : Fault)
    (ctx : CallbackContext) (L : List FaultKind) (c : CallbackContext)
    (d : Delay)
    (h1 : 0 ≤ j1) (h2 : j1 ≤ 1) (h3 : 0 ≤ j2) (h4 : j2 ≤ 1) (hrr : r ≤ r')
    (hpe : processRequestExceptionWithRetryableErrors e ctx L j1 j2 = .ok (c, d)) :
    0 ≤ powDelay r j1 j2 ∧
    powDelay r j1 j2 ≤ (2 : ℚ) ^ (Int.fdiv r 2) ∧
    powDelay r j1 j2 ≤ powDelay r' j1 j2 ∧
    d = .secs (powDelay ctx.retry.orOne j1 j2) := by
  refine ⟨?_, ?_, ?_, (prer_ok_shape e ctx L j1 j2 c d hpe).2⟩
  · unfold powDelay
    positivity
  · unfold powDelay
    have hp : (0 : ℚ) < 2 ^ (Int.fdiv r 2) := zpow_pos (by norm_num) _
    calc (2 : ℚ) ^ (Int.fdiv r 2) * j1 * j2
        ≤ 2 ^ (Int.fdiv r 2) * 1 * 1 := by
          apply mul_le_mul (mul_le_mul le_rfl h2 h1 hp.le) h4 h3
          positivity
      _ = 2 ^ (Int.fdiv r 2) := by ring
  · unfold powDelay
    have hf : Int.fdiv r 2 ≤ Int.fdiv r' 2 := by
      rw [Int.fdiv_eq_ediv r (by norm_num), Int.fdiv_eq_ediv r' (by norm_num)]
      exact Int.ediv_le_ediv (by norm_num) hrr
    have h2p : (2 : ℚ) ^ (Int.fdiv r 2) ≤ 2 ^ (Int.fdiv r' 2) :=
      zpow_le_zpow_right₀ (by norm_num) hf
    exact mul_le_mul_of_nonneg_right
      (mul_le_mul_of_nonneg_right h2p h1) h3

/-- Claim C9 witness: the amended theorem at `r = 2`, `r' = 4`, jitter
factors one half, and the shared retry path handling an HTTP 503 from the
empty context. -/
theorem c9_backoff_amended_witness :
    (0 : ℚ) ≤ powDelay 2 (1/2) (1/2) ∧
    powDelay 2 (1/2) (1/2) ≤ (2 : ℚ) ^ (Int.fdiv 2 2) ∧
    powDelay 2 (1/2) (1/2) ≤ powDelay 4 (1/2) (1/2) ∧
    Delay.secs (powDelay 1 (1/2) (1/2)) =
      .secs (powDelay (emptyCtx.retry.orOne) (1/2) (1/2)) :=
  c9_backoff_amended 2 4 (1/2) (1/2) (.http 503) emptyCtx
    [.ServiceInternalError] (onlyRetryCtx 1) (.secs (powDelay 1 (1/2) (1/2)))
    (by norm_num) (by norm_num) (by norm_num) (by norm_num) (by norm_num) rfl

/-- Claim C10 counterexample: an Update whose VERIFY_TIMING read fails with
a retryable HTTP 503 after `operationCompleted` was set (and, as in every
reachable post-update context, no `serverTiming` recorded) is *not*
re-invoked: the handler throws terminal `Failed(NotStabilized)` instead of
returning `InProgress`. -/
theorem c10_post_update_fault_terminal :
    updateHandler ⟨.num 2, .undef, some true, .undef⟩ envGet503 0 0 =
      (.failed .NotStabilized, [.get]) := by
  rfl

/-- Claim C10 (amended): whenever
`processRequestExceptionWithRetryableErrors` handles a retryable fault and
returns `InProgress`, the returned context contains only the retry field
(`retry || 1`), dropping `serverTiming`, `operationCompleted` and
`successfulCalls`.  Consequently an Update whose VERIFY_TIMING read fails
with a retryable HTTP 503 *while a `serverTiming` marker is recorded* is
re-invoked with a retry-only context that re-enters CHECK_EXISTENCE and
issues the update call a second time; in the reachable post-update context
(no `serverTiming`) the same read failure is terminal `NotStabilized`, per
the counterexample. -/
theorem c10_frame_effect_amended (e : Fault) (ctx0 : CallbackContext)
    (L : List FaultKind) (c : CallbackContext) (d : Delay) (s r : Int)
    (env env' : Env) (j1 j2 : ℚ) (resp resp' : GetResp)
    (hpe : processRequestExceptionWithRetryableErrors e ctx0 L j1 j2 = .ok (c, d))
    (hs : s ≠ 0) (hr0 : 0 < r) (hr : r ≤ 10)
    (hget : env.getRes = .error (.http 503))
    (hget' : env'.getRes = .ok resp) (hupd : env'.updateRes = .ok resp') :
    c = ⟨.num ctx0.retry.orOne, .undef, none, .undef⟩ ∧
    updateHandler ⟨.num r, .undef, none, .num s⟩ env j1 j2 =
      (.inProgress ⟨.num r, .undef, none, .undef⟩
        (.secs (powDelay r j1 j2)), [.get]) ∧
    updateHandler ⟨.num r, .undef, none, .undef⟩ env' j1 j2 =
      (.inProgress ⟨.num r, .undef, some true, .undef⟩
        (.secs (powDelay r j1 j2)), [.get, .update]) ∧
    Call.update ∈ (updateHandler ⟨.num r, .undef, none, .undef⟩ env' j1 j2).2 := by
  have ho : (JsNum.num r).orOne = r := by
    show (if r = 0 then 1 else r) = r
    rw [if_neg (by omega)]
  have h3 : updateHandler ⟨.num r, .undef, none, .undef⟩ env' j1 j2 =
      (.inProgress ⟨.num r, .undef, some true, .undef⟩
        (.secs (powDelay r j1 j2)), [.get, .update]) := by
    unfold updateHandler
    rw [if_neg (by
      rintro ⟨-, hgt⟩
      simp only [JsNum.gtNum, JsNum.toNumber, decide_eq_true_eq] at hgt
      omega)]
    rw [if_pos (by simp [JsNum.truthy, obTruthy])]
    rw [hget', hupd]
    simp [ho]
  refine ⟨(prer_ok_shape e ctx0 L j1 j2 c d hpe).1, ?_, h3, by rw [h3]; simp⟩
  unfold updateHandler
  rw [if_neg (by
    rintro ⟨-, hgt⟩
    simp only [JsNum.gtNum, JsNum.toNumber, decide_eq_true_eq] at hgt
    omega)]
  rw [if_neg (by
    rintro ⟨hsf, -⟩
    exact hsf (by simp [JsNum.truthy, hs]))]
  rw [hget]
  simp [JsNum.truthy, hs, processRequestExceptionWithRetryableErrors,
    exceptToOutcome, onlyRetryCtx, classify, ho]

/-- Claim C10 witness: the amended theorem at stored marker 5, `retry = 2`,
jitter factors one half. -/
theorem c10_frame_effect_amended_witness :
    onlyRetryCtx 1 = ⟨.num (emptyCtx.retry.orOne), .undef, none, .undef⟩ ∧
    updateHandler ⟨.num 2, .undef, none, .num 5⟩ envGet503 (1/2) (1/2) =
      (.inProgress ⟨.num 2, .undef, none, .undef⟩
        (.secs (powDelay 2 (1/2) (1/2))), [.get]) ∧
    updateHandler ⟨.num 2, .undef, none, .undef⟩ envAllOk (1/2) (1/2) =
      (.inProgress ⟨.num 2, .undef, some true, .undef⟩
        (.secs (powDelay 2 (1/2) (1/2))), [.get, .update]) ∧
    Call.update ∈ (updateHandler ⟨.num 2, .undef, none, .undef⟩ envAllOk (1/2) (1/2)).2 :=
  c10_frame_effect_amended (.http 503) emptyCtx [.ServiceInternalError]
    (onlyRetryCtx 1) (.secs (powDelay 1 (1/2) (1/2))) 5 2 envGet503 envAllOk
    (1/2) (1/2) ⟨0⟩ ⟨0⟩ rfl (by decide) (by decide) (by decide) rfl rfl rfl
